import Mathlib

/-!
Verification development for the multi-object tracker in `src/tracker.py`
of the AndroidVideoTransToPC repository.

Modelling conventions:
* Python floats are modelled by `ℚ` (exact rational arithmetic).  All the
  comparisons the tracker performs sit far from float32 rounding margins
  (sentinel cost 2.0 against threshold 0.3, decay powers of 9/10, ...).
* The source compares `sqrt(dx² + dy²) > max_distance` where
  `max_distance = sqrt(W² + H²) * 0.1`.  Both sides are non-negative, so the
  comparison is equivalent to the squared comparison
  `dx² + dy² > (W² + H²) * 0.1²`, which is what the embedding uses (this
  keeps everything inside `ℚ`; `sqrt` is strictly monotone on `[0, ∞)`).
* `cv2.KalmanFilter` and `scipy.optimize.linear_sum_assignment` are external
  libraries, not part of the repository; they are modelled from the spec
  (sections 4.1, 9 and the glossary) as the standard Kalman predict/correct
  equations with the covariances set by `KalmanTracker.__init__`, and as an
  optimal one-to-one assignment minimising total cost.
* Mutation of tracker objects is modelled by explicit state passing: every
  mutating method returns the updated structure.
-/

open scoped Matrix

/-- Axis-aligned bounding box `[x1, y1, x2, y2]` as used throughout
`tracker.py`. -/
structure Box where
  x1 : ℚ
  y1 : ℚ
  x2 : ℚ
  y2 : ℚ
deriving DecidableEq

/-- x-coordinate of the centre of a box, `(x1 + x2) / 2`. -/
def Box.cx (b : Box) : ℚ := (b.x1 + b.x2) / 2

/-- y-coordinate of the centre of a box, `(y1 + y2) / 2`. -/
def Box.cy (b : Box) : ℚ := (b.y1 + b.y2) / 2

/-- Squared distance between the centres of two boxes.  The source computes
`dx = center_a[0] - center_b[0]`, `dy = ...` and then `dx*dx + dy*dy`. -/
def centerDistSq (a b : Box) : ℚ :=
  (a.cx - b.cx) * (a.cx - b.cx) + (a.cy - b.cy) * (a.cy - b.cy)

/-- `compute_iou` from `tracker.py` (lines 7-22): intersection over union of
two boxes, with the division guarded by `union_area > 0`. -/
def compute_iou (a b : Box) : ℚ :=
  let inter_x1 := max a.x1 b.x1
  let inter_y1 := max a.y1 b.y1
  let inter_x2 := min a.x2 b.x2
  let inter_y2 := min a.y2 b.y2
  let inter_w := max 0 (inter_x2 - inter_x1)
  let inter_h := max 0 (inter_y2 - inter_y1)
  let inter_area := inter_w * inter_h
  let a_area := (a.x2 - a.x1) * (a.y2 - a.y1)
  let b_area := (b.x2 - b.x1) * (b.y2 - b.y1)
  let union_area := a_area + b_area - inter_area
  if union_area > 0 then inter_area / union_area else 0

/-- The 8×8 constant-acceleration transition matrix set in
`KalmanTracker.__init__` (lines 74-83). -/
def transitionMatrix : Matrix (Fin 8) (Fin 8) ℚ :=
  !![1, 0, 0, 0, 1, 0, 1/2, 0;
     0, 1, 0, 0, 0, 1, 0, 1/2;
     0, 0, 1, 0, 0, 0, 1, 0;
     0, 0, 0, 1, 0, 0, 0, 1;
     0, 0, 0, 0, 1, 0, 1, 0;
     0, 0, 0, 0, 0, 1, 0, 1;
     0, 0, 0, 0, 0, 0, 1, 0;
     0, 0, 0, 0, 0, 0, 0, 1]

/-- `np.eye(4, 8)`: the measurement matrix selecting `(x, y, w, h)` from the
8-dimensional state (line 84). -/
def measurementMatrix : Matrix (Fin 4) (Fin 8) ℚ :=
  Matrix.of fun i j => if (j : ℕ) = (i : ℕ) then 1 else 0

/-- Process noise `0.03·I` with the velocity block set to `0.1·I`
(lines 87-88). -/
def processNoiseCov : Matrix (Fin 8) (Fin 8) ℚ :=
  Matrix.of fun i j =>
    if i = j then (if (i : ℕ) = 4 ∨ (i : ℕ) = 5 then 1/10 else 3/100) else 0

/-- Measurement noise `0.2·I` (line 89). -/
def measurementNoiseCov : Matrix (Fin 4) (Fin 4) ℚ :=
  Matrix.of fun i j => if i = j then 1/5 else 0

/-- Initial posterior covariance `0.9·I` (line 90). -/
def initErrorCov : Matrix (Fin 8) (Fin 8) ℚ :=
  Matrix.of fun i j => if i = j then 9/10 else 0

/-- 3×3 determinant by explicit cofactor expansion. -/
def det3x3 (m : Matrix (Fin 3) (Fin 3) ℚ) : ℚ :=
  m 0 0 * (m 1 1 * m 2 2 - m 1 2 * m 2 1)
    - m 0 1 * (m 1 0 * m 2 2 - m 1 2 * m 2 0)
    + m 0 2 * (m 1 0 * m 2 1 - m 1 1 * m 2 0)

/-- The 3×3 minor of a 4×4 matrix obtained by deleting row `r` and
column `c`. -/
def minor3 (m : Matrix (Fin 4) (Fin 4) ℚ) (r c : Fin 4) :
    Matrix (Fin 3) (Fin 3) ℚ :=
  Matrix.of fun i j => m (r.succAbove i) (c.succAbove j)

/-- 4×4 determinant by cofactor expansion along the first row. -/
def det4x4 (m : Matrix (Fin 4) (Fin 4) ℚ) : ℚ :=
  m 0 0 * det3x3 (minor3 m 0 0) - m 0 1 * det3x3 (minor3 m 0 1)
    + m 0 2 * det3x3 (minor3 m 0 2) - m 0 3 * det3x3 (minor3 m 0 3)

/-- Inverse of a 4×4 rational matrix via the adjugate (used for the
innovation covariance in the Kalman correction step). -/
def inv4 (m : Matrix (Fin 4) (Fin 4) ℚ) : Matrix (Fin 4) (Fin 4) ℚ :=
  Matrix.of fun i j =>
    ((-1 : ℚ) ^ ((i : ℕ) + (j : ℕ)) * det3x3 (minor3 m j i)) / det4x4 m

/-- State of the `cv2.KalmanFilter(8, 4)` owned by a `KalmanTracker`:
prior/posterior state estimates and error covariances. -/
structure KalmanFilter where
  statePre : Fin 8 → ℚ
  statePost : Fin 8 → ℚ
  errorCovPre : Matrix (Fin 8) (Fin 8) ℚ
  errorCovPost : Matrix (Fin 8) (Fin 8) ℚ

/-- Modelled from the spec: `cv2.KalmanFilter.predict` is external library
code.  Section 4.1 specifies the constant-acceleration time update; OpenCV
additionally copies the prior into the posterior so that repeated predictions
without corrections compound, which the tracker relies on for lost tracks. -/
def KalmanFilter.predict (kf : KalmanFilter) : KalmanFilter :=
  let pre := transitionMatrix *ᵥ kf.statePost
  let covPre :=
    transitionMatrix * kf.errorCovPost * transitionMatrixᵀ + processNoiseCov
  { statePre := pre
    statePost := pre
    errorCovPre := covPre
    errorCovPost := covPre }

/-- Modelled from the spec: `cv2.KalmanFilter.correct` is external library
code.  Section 4.1 specifies a standard Kalman correction step folding the
measurement into the estimate; these are the textbook gain equations. -/
def KalmanFilter.correct (kf : KalmanFilter) (z : Fin 4 → ℚ) : KalmanFilter :=
  let S := measurementMatrix * kf.errorCovPre * measurementMatrixᵀ
      + measurementNoiseCov
  let K := kf.errorCovPre * measurementMatrixᵀ * inv4 S
  { statePre := kf.statePre
    statePost := kf.statePre + K *ᵥ (z - measurementMatrix *ᵥ kf.statePre)
    errorCovPre := kf.errorCovPre
    errorCovPost := (1 - K * measurementMatrix) * kf.errorCovPre }

/-- One tracked object (`KalmanTracker` in `tracker.py`). -/
structure KalmanTracker where
  id : ℕ
  age : ℕ
  lost : ℕ
  max_history : ℕ
  history : List (ℚ × ℚ)
  last_detection : Box
  frame_w : ℚ
  frame_h : ℚ
  predict_state : Option Box
  kf : KalmanFilter

/-- Appending to a `collections.deque` with `maxlen`: the element goes on
the right and the leftmost (oldest) elements are discarded so that the
length never exceeds `maxlen`. -/
def dequeAppend (maxlen : ℕ) (hist : List (ℚ × ℚ)) (c : ℚ × ℚ) :
    List (ℚ × ℚ) :=
  let hist' := hist ++ [c]
  hist'.drop (hist'.length - maxlen)

/-- `KalmanTracker.update_history` (lines 117-121): append the centre of the
current posterior state to the trajectory deque. -/
def KalmanTracker.update_history (trk : KalmanTracker) : KalmanTracker :=
  { trk with
    history :=
      dequeAppend trk.max_history trk.history
        (trk.kf.statePost 0, trk.kf.statePost 1) }

/-- The measurement vector `[cx, cy, w, h]` built from a box, as in
`KalmanTracker.update` (lines 109-111). -/
def measurementOf (bbox : Box) : Fin 4 → ℚ :=
  ![bbox.cx, bbox.cy, bbox.x2 - bbox.x1, bbox.y2 - bbox.y1]

/-- `KalmanTracker.__init__` (lines 58-95).  The `id_` argument is always
supplied by `ObjectTracker` (the class-level counter fallback is never used
there), `max_history` is always left at its default 30, and
`update_history` records the first trajectory point. -/
def KalmanTracker.init (bbox : Box) (id_ : ℕ) (frame_w frame_h : ℚ) :
    KalmanTracker :=
  let x := bbox.cx
  let y := bbox.cy
  let w := bbox.x2 - bbox.x1
  let h := bbox.y2 - bbox.y1
  let state : Fin 8 → ℚ := ![x, y, w, h, 0, 0, 0, 0]
  KalmanTracker.update_history
    { id := id_
      age := 0
      lost := 0
      max_history := 30
      history := []
      last_detection := bbox
      frame_w := frame_w
      frame_h := frame_h
      predict_state := none
      kf :=
        { statePre := state
          statePost := state
          errorCovPre := 0
          errorCovPost := initErrorCov } }

/-- `KalmanTracker.predict` (lines 97-105): advance the filter, cache the
predicted box in `predict_state` and increment `age`. -/
def KalmanTracker.predict (trk : KalmanTracker) : KalmanTracker :=
  let kf' := trk.kf.predict
  let x := kf'.statePre 0
  let y := kf'.statePre 1
  let w := kf'.statePre 2
  let h := kf'.statePre 3
  { trk with
    kf := kf'
    predict_state := some ⟨x - w / 2, y - h / 2, x + w / 2, y + h / 2⟩
    age := trk.age + 1 }

/-- `KalmanTracker.update` (lines 107-115): correct the filter with the
observed box, remember it as `last_detection`, reset `lost` and record the
corrected centre in the history. -/
def KalmanTracker.update (trk : KalmanTracker) (bbox : Box) : KalmanTracker :=
  let kf' := trk.kf.correct (measurementOf bbox)
  KalmanTracker.update_history
    { trk with
      kf := kf'
      last_detection := bbox
      lost := 0 }

/-- `KalmanTracker.get_state` (lines 123-127): the box derived from the
current posterior estimate. -/
def KalmanTracker.get_state (trk : KalmanTracker) : Box :=
  let x := trk.kf.statePost 0
  let y := trk.kf.statePost 1
  let w := trk.kf.statePost 2
  let h := trk.kf.statePost 3
  ⟨x - w / 2, y - h / 2, x + w / 2, y + h / 2⟩

/-- `KalmanTracker.get_last_detection` (lines 129-131). -/
def KalmanTracker.get_last_detection (trk : KalmanTracker) : Box :=
  trk.last_detection

/-- Modelled from the spec: `scipy.optimize.linear_sum_assignment` is an
external numerical routine.  `injections rows cols` enumerates every
one-to-one pairing that assigns each row in `rows` a distinct column from
`cols`. -/
def injections : List ℕ → List ℕ → List (List (ℕ × ℕ))
  | [], _ => [[]]
  | r :: rs, cols =>
      (cols.map fun c =>
        (injections rs (cols.erase c)).map fun rest => (r, c) :: rest).flatten

/-- Total cost of a pairing under a cost function. -/
def totalCost (cost : ℕ → ℕ → ℚ) (pairs : List (ℕ × ℕ)) : ℚ :=
  (pairs.map fun p => cost p.1 p.2).sum

/-- First pairing of minimal total cost among the candidates. -/
def pickMin (cost : ℕ → ℕ → ℚ) (cands : List (List (ℕ × ℕ))) :
    List (ℕ × ℕ) :=
  match cands with
  | [] => []
  | c :: cs =>
      cs.foldl
        (fun best cand =>
          if totalCost cost cand < totalCost cost best then cand else best) c

/-- Modelled from the spec: the glossary and section 9 specify the solver as
"the assignment between two finite sets minimizing total pairwise cost,
one-to-one" on a rectangular `N × M` matrix (tie-breaks are the solver's
internal business, section 4.2). -/
def linear_sum_assignment (N M : ℕ) (cost : ℕ → ℕ → ℚ) : List (ℕ × ℕ) :=
  if N ≤ M then
    pickMin cost (injections (List.range N) (List.range M))
  else
    (pickMin (fun r c => cost c r)
        (injections (List.range M) (List.range N))).map fun p => (p.2, p.1)

/-- `ObjectTracker`'s mutable state (`__init__`, lines 137-146).  The
attributes `match_threshold`, `max_distance_factor` and `decay_factor` are
assigned fixed literals in `__init__` and never written again, so they are
plain constants here (below); only `max_lost` and `score_thresh` are
configurable. -/
structure ObjectTracker where
  max_lost : ℕ
  score_thresh : ℚ
  trackers : List KalmanTracker
  next_id : ℕ
  id_mapping : List (ℕ × ℤ)

/-- `self.match_threshold = 0.3` (line 143). -/
def match_threshold : ℚ := 3/10

/-- `self.max_distance_factor = 0.1` (line 145). -/
def max_distance_factor : ℚ := 1/10

/-- `self.decay_factor = 0.9` (line 146). -/
def decay_factor : ℚ := 9/10

/-- `ObjectTracker.__init__` (lines 137-146): empty track list, id counter
starting at 1, empty id-mapping dictionary. -/
def ObjectTracker.init (max_lost : ℕ) (score_thresh : ℚ) : ObjectTracker :=
  { max_lost := max_lost
    score_thresh := score_thresh
    trackers := []
    next_id := 1
    id_mapping := [] }

/-- A detection `[x1, y1, x2, y2, score]` as fed to `ObjectTracker.update`. -/
structure Det where
  x1 : ℚ
  y1 : ℚ
  x2 : ℚ
  y2 : ℚ
  score : ℚ
deriving DecidableEq

/-- The box part `d[:4]` of a detection. -/
def Det.box (d : Det) : Box := ⟨d.x1, d.y1, d.x2, d.y2⟩

/-- Frame-dimension handling in `ObjectTracker.update` (lines 167-170):
`frame_shape[:2]` when a shape `(h, w)` is given, `(480, 640)` when it is
`None`.  Returns `(frame_h, frame_w)`. -/
def resolveDims : Option (ℚ × ℚ) → ℚ × ℚ
  | none => (480, 640)
  | some hw => hw

/-- The squared gating distance.  Source (line 171):
`max_distance = sqrt(frame_w² + frame_h²) * max_distance_factor`; squaring
both sides of each gate comparison keeps the arithmetic rational. -/
def maxDistanceSq (frame_w frame_h : ℚ) : ℚ :=
  (frame_w * frame_w + frame_h * frame_h)
    * (max_distance_factor * max_distance_factor)

/-- The matching reference box of a track during stages A and B
(lines 282, 319): the cached prediction, falling back to the current state
when no prediction has been made yet. -/
def pred_box_of (trk : KalmanTracker) : Box :=
  trk.predict_state.getD trk.get_state

/-- A default box; Python would raise `IndexError` on an out-of-range list
access, but every access in `tracker.py` is in range, so the default is
never observable on the paths the source can take. -/
def dummyBox : Box := ⟨0, 0, 0, 0⟩

/-- Default tracker for out-of-range list accesses (same remark as
`dummyBox`). -/
def dummyTracker : KalmanTracker := KalmanTracker.init dummyBox 0 640 480

/-- Cost-matrix entry of `_first_matching` (lines 279-297): squared-distance
similarity `D = 1 - d²/c²` against the predicted box, sentinel 2.0 for pairs
beyond the gating distance (the `continue` leaves the initial 2.0 in
place). -/
def first_cost (trackers : List KalmanTracker) (detections : List Box)
    (frame_w frame_h max_distance_sq : ℚ) (i j : ℕ) : ℚ :=
  match trackers[i]?, detections[j]? with
  | some trk, some det =>
      let pred_box := pred_box_of trk
      if centerDistSq det pred_box > max_distance_sq then 2
      else
        let c_sq := frame_w * frame_w + frame_h * frame_h
        let d_ij := 1 - centerDistSq det pred_box / c_sq
        1 - d_ij
  | _, _ => 2

/-- The `valid_matches` list of `_first_matching` (lines 300-304): solver
pairs whose cost beats `match_threshold`. -/
def first_valid (trackers : List KalmanTracker) (detections : List Box)
    (frame_w frame_h max_distance_sq : ℚ) : List (ℕ × ℕ) :=
  let cost := first_cost trackers detections frame_w frame_h max_distance_sq
  (linear_sum_assignment trackers.length detections.length cost).filter
    fun p => cost p.1 p.2 < match_threshold

/-- `ObjectTracker._first_matching` (lines 273-308): solve the assignment on
the stage-A cost matrix and keep the pairs whose cost beats
`match_threshold`.  Returns `(tracked_indices, matched_dets)`. -/
def first_matching (trackers : List KalmanTracker) (detections : List Box)
    (frame_w frame_h max_distance_sq : ℚ) : List ℕ × List ℕ :=
  if trackers.length = 0 ∨ detections.length = 0 then ([], [])
  else
    let valid :=
      first_valid trackers detections frame_w frame_h max_distance_sq
    (valid.map Prod.fst, valid.map Prod.snd)

/-- Cost-matrix entry of `_second_matching` (lines 316-340):
`DIoU₂ = (IoU + D) / 2` against the predicted box, same gating sentinel. -/
def second_cost (trackers : List KalmanTracker) (detections : List Box)
    (frame_w frame_h max_distance_sq : ℚ) (i j : ℕ) : ℚ :=
  match trackers[i]?, detections[j]? with
  | some trk, some det =>
      let pred_box := pred_box_of trk
      if centerDistSq det pred_box > max_distance_sq then 2
      else
        let iou := compute_iou pred_box det
        let c_sq := frame_w * frame_w + frame_h * frame_h
        let d_ij := 1 - centerDistSq det pred_box / c_sq
        let diou_2 := (iou + d_ij) / 2
        1 - diou_2
  | _, _ => 2

/-- The `valid_matches` list of `_second_matching` (lines 343-347). -/
def second_valid (trackers : List KalmanTracker) (detections : List Box)
    (frame_w frame_h max_distance_sq : ℚ) : List (ℕ × ℕ) :=
  let cost := second_cost trackers detections frame_w frame_h max_distance_sq
  (linear_sum_assignment trackers.length detections.length cost).filter
    fun p => cost p.1 p.2 < match_threshold

/-- `ObjectTracker._second_matching` (lines 310-351). -/
def second_matching (trackers : List KalmanTracker) (detections : List Box)
    (frame_w frame_h max_distance_sq : ℚ) : List ℕ × List ℕ :=
  if trackers.length = 0 ∨ detections.length = 0 then ([], [])
  else
    let valid :=
      second_valid trackers detections frame_w frame_h max_distance_sq
    (valid.map Prod.fst, valid.map Prod.snd)

/-- Cost-matrix entry of `_trajectory_recovery` (lines 359-387): the same
`DIoU₂` but measured against `last_detection` instead of the prediction, and
scaled by the time decay `1 - decay_factor ^ lost` before conversion to
cost. -/
def recovery_cost (trackers : List KalmanTracker) (detections : List Box)
    (frame_w frame_h max_distance_sq : ℚ) (i j : ℕ) : ℚ :=
  match trackers[i]?, detections[j]? with
  | some trk, some det =>
      let last_det := trk.get_last_detection
      if centerDistSq det last_det > max_distance_sq then 2
      else
        let iou := compute_iou last_det det
        let c_sq := frame_w * frame_w + frame_h * frame_h
        let d_ij := 1 - centerDistSq det last_det / c_sq
        let time_decay := 1 - decay_factor ^ trk.lost
        let diou_2 := (iou + d_ij) / 2 * time_decay
        1 - diou_2
  | _, _ => 2

/-- `ObjectTracker._trajectory_recovery` (lines 353-396).  The source returns
`(tracker object, det index)` pairs and the caller recovers the position via
`self.trackers.index(trk)` (object identity); since the objects handed in
are exactly `trackers[r]`, this is the index `r` into the argument list,
which is what the embedding returns. -/
def trajectory_recovery (trackers : List KalmanTracker)
    (detections : List Box) (frame_w frame_h max_distance_sq : ℚ) :
    List (ℕ × ℕ) :=
  if trackers.length = 0 ∨ detections.length = 0 then []
  else
    let cost :=
      recovery_cost trackers detections frame_w frame_h max_distance_sq
    (linear_sum_assignment trackers.length detections.length cost).filter
      fun p => cost p.1 p.2 < match_threshold

/-- One entry of the list returned by `_get_tracking_results`
(lines 398-408). -/
structure TrackResult where
  id : ℕ
  bbox : Box
  trace : List (ℚ × ℚ)

/-- `ObjectTracker._get_tracking_results` (lines 398-408). -/
def get_tracking_results (trackers : List KalmanTracker) : List TrackResult :=
  trackers.map fun trk =>
    { id := trk.id, bbox := trk.get_state, trace := trk.history }

/-- The recovery-application loop in `ObjectTracker.update` (lines 225-234):
recovered tracks are corrected immediately, the detection is marked
assigned, and the track index is recorded, skipping detections already
assigned.  State is `(trackers, assigned_det, recovered_track_indices)`. -/
def applyRecoveryAux (det_boxes : List Box)
    (unmatched_tracks unmatched_dets : List ℕ) :
    List (ℕ × ℕ) → List KalmanTracker × List Bool × List ℕ →
      List KalmanTracker × List Bool × List ℕ
  | [], st => st
  | rc :: rest, st =>
      applyRecoveryAux det_boxes unmatched_tracks unmatched_dets rest
        (let trk_idx := unmatched_tracks.getD rc.1 0
        let actual_det_idx := unmatched_dets.getD rc.2 0
        if st.2.1.getD actual_det_idx false then st
        else
          (st.1.set trk_idx
              ((st.1.getD trk_idx dummyTracker).update
                (det_boxes.getD actual_det_idx dummyBox)),
            st.2.1.set actual_det_idx true,
            st.2.2 ++ [trk_idx]))

/-- See `applyRecoveryAux`; the loop starts with the post-prediction track
list, the assignment flags from stages A/B, and no recovered indices. -/
def applyRecovery (det_boxes : List Box)
    (unmatched_tracks unmatched_dets : List ℕ) (recovered : List (ℕ × ℕ))
    (trks : List KalmanTracker) (assigned : List Bool) :
    List KalmanTracker × List Bool × List ℕ :=
  applyRecoveryAux det_boxes unmatched_tracks unmatched_dets recovered
    (trks, assigned, [])

/-- The per-track closeout loop in `ObjectTracker.update` (lines 236-253):
stage-A matches and stage-B matches are corrected with their detection,
recovered tracks were already corrected, and everything else ages by one
miss. -/
def lifecycle_body (det_boxes : List Box)
    (high_score_idx low_score_idx : List ℕ)
    (high_tracked high_matched low_tracked low_matched recovered_idx :
      List ℕ)
    (i : ℕ) (trk : KalmanTracker) : KalmanTracker :=
  if high_tracked.contains i then
    let high_idx := high_tracked.findIdx fun x => x == i
    let det_idx := high_score_idx.getD (high_matched.getD high_idx 0) 0
    trk.update (det_boxes.getD det_idx dummyBox)
  else if low_tracked.contains i then
    let low_idx := low_tracked.findIdx fun x => x == i
    let det_idx := low_score_idx.getD (low_matched.getD low_idx 0) 0
    trk.update (det_boxes.getD det_idx dummyBox)
  else if recovered_idx.contains i then trk
  else { trk with lost := trk.lost + 1 }

/-- See `lifecycle_body`: Python iterates `enumerate(self.trackers)`. -/
def lifecycle_update (det_boxes : List Box)
    (high_score_idx low_score_idx : List ℕ)
    (high_tracked high_matched low_tracked low_matched recovered_idx :
      List ℕ)
    (trks : List KalmanTracker) : List KalmanTracker :=
  (List.range trks.length).map fun i =>
    lifecycle_body det_boxes high_score_idx low_score_idx high_tracked
      high_matched low_tracked low_matched recovered_idx i
      (trks.getD i dummyTracker)

/-- The spawning loop in `ObjectTracker.update` (lines 255-260): every
unassigned detection becomes a fresh track carrying `next_id`, which is then
incremented. -/
def spawnNewAux (det_boxes : List Box) (frame_w frame_h : ℚ) :
    List (ℕ × Bool) → List KalmanTracker × ℕ → List KalmanTracker × ℕ
  | [], st => st
  | p :: ps, st =>
      spawnNewAux det_boxes frame_w frame_h ps
        (if p.2 then st
        else
          (st.1 ++ [KalmanTracker.init (det_boxes.getD p.1 dummyBox) st.2
              frame_w frame_h],
            st.2 + 1))

/-- See `spawnNewAux`: iterate over `enumerate(assigned_det)`. -/
def spawn_new (det_boxes : List Box) (frame_w frame_h : ℚ)
    (assigned : List Bool) (trks : List KalmanTracker) (next_id : ℕ) :
    List KalmanTracker × ℕ :=
  spawnNewAux det_boxes frame_w frame_h assigned.enum (trks, next_id)

/-- The id-mapping refresh in `ObjectTracker.update` (lines 262-267). -/
def update_id_mapping (trks : List KalmanTracker) (idm : List (ℕ × ℤ)) :
    List (ℕ × ℤ) :=
  idm.map fun p =>
    if trks.any fun trk => trk.id == p.1 then (p.1, (0 : ℤ))
    else (p.1, p.2 - 1)

/-- The closing part of `ObjectTracker.update` (lines 255-271): spawn a
fresh track for every unassigned detection, refresh the id mapping, prune
every track with `lost >= max_lost`, and return the new state with the
tracking results. -/
def ObjectTracker.closeout (self : ObjectTracker) (det_boxes : List Box)
    (frame_w frame_h : ℚ) (assigned : List Bool)
    (trks3 : List KalmanTracker) : ObjectTracker × List TrackResult :=
  let sp := spawn_new det_boxes frame_w frame_h assigned trks3 self.next_id
  let trks4 := sp.1
  let idm := update_id_mapping trks4 self.id_mapping
  let trks5 := trks4.filter fun trk => trk.lost < self.max_lost
  ({ self with trackers := trks5, next_id := sp.2, id_mapping := idm },
    get_tracking_results trks5)

/-- `ObjectTracker.update` (lines 148-271), the per-frame `step()`.  Python
mutates the tracker objects in place (`predict`, `update`); the embedding
threads the updated list instead.  Returns the new manager state together
with the tracking results. -/
def ObjectTracker.update (self : ObjectTracker) (dets : List Det)
    (frame_shape : Option (ℚ × ℚ)) : ObjectTracker × List TrackResult :=
  if dets.length = 0 then
    let trks := self.trackers.map fun trk =>
      let t := trk.predict
      { t with lost := t.lost + 1 }
    ({ self with trackers := trks }, get_tracking_results trks)
  else
    let det_boxes := dets.map Det.box
    let det_scores := dets.map Det.score
    let fhw := resolveDims frame_shape
    let frame_h := fhw.1
    let frame_w := fhw.2
    let max_distance_sq := maxDistanceSq frame_w frame_h
    let trks1 := self.trackers.map KalmanTracker.predict
    let high_score_idx := (List.range det_scores.length).filter fun i =>
      det_scores.getD i 0 ≥ self.score_thresh
    let low_score_idx := (List.range det_scores.length).filter fun i =>
      det_scores.getD i 0 < self.score_thresh
    let high_dets := high_score_idx.map fun i => det_boxes.getD i dummyBox
    let low_dets := low_score_idx.map fun i => det_boxes.getD i dummyBox
    let hm := first_matching trks1 high_dets frame_w frame_h max_distance_sq
    let high_tracked := hm.1
    let high_matched := hm.2
    let unmatched_trackers := (List.range trks1.length).filter fun i =>
      ¬ high_tracked.contains i
    let lm := second_matching
      (unmatched_trackers.map fun i => trks1.getD i dummyTracker) low_dets
      frame_w frame_h max_distance_sq
    let low_tracked := lm.1.map fun i => unmatched_trackers.getD i 0
    let low_matched := lm.2
    let tracked_indices := high_tracked ++ low_tracked
    let unmatched_tracks := (List.range trks1.length).filter fun i =>
      ¬ tracked_indices.contains i
    let matched_high_det_indices :=
      high_matched.map fun i => high_score_idx.getD i 0
    let matched_low_det_indices :=
      low_matched.map fun i => low_score_idx.getD i 0
    let unmatched_dets := (List.range det_boxes.length).filter fun i =>
      ¬ (matched_high_det_indices ++ matched_low_det_indices).contains i
    let assigned0 := (List.range det_boxes.length).map fun i =>
      (matched_high_det_indices ++ matched_low_det_indices).contains i
    let recovered :=
      if unmatched_tracks.length > 0 ∧ unmatched_dets.length > 0 then
        trajectory_recovery
          (unmatched_tracks.map fun i => trks1.getD i dummyTracker)
          (unmatched_dets.map fun i => det_boxes.getD i dummyBox)
          frame_w frame_h max_distance_sq
      else []
    let ar := applyRecovery det_boxes unmatched_tracks unmatched_dets
      recovered trks1 assigned0
    let trks2 := ar.1
    let assigned1 := ar.2.1
    let recovered_idx := ar.2.2
    let trks3 := lifecycle_update det_boxes high_score_idx low_score_idx
      high_tracked high_matched low_tracked low_matched recovered_idx trks2
    self.closeout det_boxes frame_w frame_h assigned1 trks3

/-- `ObjectTracker.reset` (lines 420-424). -/
def ObjectTracker.reset (self : ObjectTracker) : ObjectTracker :=
  { self with trackers := [], next_id := 1, id_mapping := [] }

/-- The ids of a list of tracks, in order. -/
def idsOf (trks : List KalmanTracker) : List ℕ := trks.map KalmanTracker.id

/-- Run a sequence of `step()` calls, returning the final manager state. -/
def ObjectTracker.run (self : ObjectTracker) :
    List (List Det × Option (ℚ × ℚ)) → ObjectTracker
  | [] => self
  | input :: rest => ((self.update input.1 input.2).1).run rest

/-- The results of each `step()` call in a sequence, in call order. -/
def ObjectTracker.runResults (self : ObjectTracker) :
    List (List Det × Option (ℚ × ℚ)) → List (List TrackResult)
  | [] => []
  | input :: rest =>
      (self.update input.1 input.2).2 ::
        ((self.update input.1 input.2).1).runResults rest

/-- The ids issued to new tracks during one `step()` call: `next_id` is
handed out consecutively for every spawned track. -/
def stepIssued (self : ObjectTracker) (dets : List Det)
    (frame_shape : Option (ℚ × ℚ)) : List ℕ :=
  List.range' self.next_id
    ((self.update dets frame_shape).1.next_id - self.next_id)

/-- All ids issued across a sequence of `step()` calls, in issuance order. -/
def runIssued (self : ObjectTracker) :
    List (List Det × Option (ℚ × ℚ)) → List ℕ
  | [] => []
  | input :: rest =>
      stepIssued self input.1 input.2 ++
        runIssued (self.update input.1 input.2).1 rest

/-! ### Shared lemmas -/

attribute [local semireducible] Rat.add Rat.mul Rat.sub Rat.inv

theorem centerDistSq_nonneg (a b : Box) : 0 ≤ centerDistSq a b :=
  add_nonneg (mul_self_nonneg _) (mul_self_nonneg _)

theorem first_matching_zip (trks : List KalmanTracker) (dets : List Box)
    (fw fh mds : ℚ) :
    (first_matching trks dets fw fh mds).1.zip
        (first_matching trks dets fw fh mds).2 =
      if trks.length = 0 ∨ dets.length = 0 then []
      else first_valid trks dets fw fh mds := by
  unfold first_matching
  split
  · rfl
  · simp [List.zip_map']

theorem second_matching_zip (trks : List KalmanTracker) (dets : List Box)
    (fw fh mds : ℚ) :
    (second_matching trks dets fw fh mds).1.zip
        (second_matching trks dets fw fh mds).2 =
      if trks.length = 0 ∨ dets.length = 0 then []
      else second_valid trks dets fw fh mds := by
  unfold second_matching
  split
  · rfl
  · simp [List.zip_map']

theorem cost_lt_of_mem_first {trks : List KalmanTracker} {dets : List Box}
    {fw fh mds : ℚ} {i j : ℕ}
    (h : (i, j) ∈ (first_matching trks dets fw fh mds).1.zip
        (first_matching trks dets fw fh mds).2) :
    first_cost trks dets fw fh mds i j < match_threshold := by
  rw [first_matching_zip] at h
  split at h
  · simp at h
  · exact of_decide_eq_true (List.mem_filter.mp h).2

theorem cost_lt_of_mem_second {trks : List KalmanTracker} {dets : List Box}
    {fw fh mds : ℚ} {i j : ℕ}
    (h : (i, j) ∈ (second_matching trks dets fw fh mds).1.zip
        (second_matching trks dets fw fh mds).2) :
    second_cost trks dets fw fh mds i j < match_threshold := by
  rw [second_matching_zip] at h
  split at h
  · simp at h
  · exact of_decide_eq_true (List.mem_filter.mp h).2

theorem cost_lt_of_mem_recovery {trks : List KalmanTracker} {dets : List Box}
    {fw fh mds : ℚ} {i j : ℕ}
    (h : (i, j) ∈ trajectory_recovery trks dets fw fh mds) :
    recovery_cost trks dets fw fh mds i j < match_threshold := by
  unfold trajectory_recovery at h
  split at h
  · simp at h
  · exact of_decide_eq_true (List.mem_filter.mp h).2

theorem first_cost_gated {trks : List KalmanTracker} {dets : List Box}
    {fw fh mds : ℚ} {i j : ℕ} {trk : KalmanTracker} {det : Box}
    (hi : trks[i]? = some trk) (hj : dets[j]? = some det)
    (h : centerDistSq det (pred_box_of trk) > mds) :
    first_cost trks dets fw fh mds i j = 2 := by
  simp [first_cost, hi, hj, h]

theorem second_cost_gated {trks : List KalmanTracker} {dets : List Box}
    {fw fh mds : ℚ} {i j : ℕ} {trk : KalmanTracker} {det : Box}
    (hi : trks[i]? = some trk) (hj : dets[j]? = some det)
    (h : centerDistSq det (pred_box_of trk) > mds) :
    second_cost trks dets fw fh mds i j = 2 := by
  simp [second_cost, hi, hj, h]

theorem recovery_cost_gated {trks : List KalmanTracker} {dets : List Box}
    {fw fh mds : ℚ} {i j : ℕ} {trk : KalmanTracker} {det : Box}
    (hi : trks[i]? = some trk) (hj : dets[j]? = some det)
    (h : centerDistSq det trk.get_last_detection > mds) :
    recovery_cost trks dets fw fh mds i j = 2 := by
  simp [recovery_cost, hi, hj, h]

theorem second_cost_not_gated {trks : List KalmanTracker} {dets : List Box}
    {fw fh mds : ℚ} {i j : ℕ} {trk : KalmanTracker} {det : Box}
    (hi : trks[i]? = some trk) (hj : dets[j]? = some det)
    (h : ¬ centerDistSq det (pred_box_of trk) > mds) :
    second_cost trks dets fw fh mds i j =
      1 - (compute_iou (pred_box_of trk) det +
        (1 - centerDistSq det (pred_box_of trk) / (fw * fw + fh * fh))) / 2 := by
  simp [second_cost, hi, hj, h]

theorem recovery_cost_not_gated {trks : List KalmanTracker} {dets : List Box}
    {fw fh mds : ℚ} {i j : ℕ} {trk : KalmanTracker} {det : Box}
    (hi : trks[i]? = some trk) (hj : dets[j]? = some det)
    (h : ¬ centerDistSq det trk.get_last_detection > mds) :
    recovery_cost trks dets fw fh mds i j =
      1 - (compute_iou trk.last_detection det +
          (1 - centerDistSq det trk.last_detection / (fw * fw + fh * fh))) / 2
        * (1 - decay_factor ^ trk.lost) := by
  have h' : ¬ centerDistSq det trk.last_detection > mds := h
  simp [recovery_cost, hi, hj, KalmanTracker.get_last_detection, h']

theorem compute_iou_of_inter_zero {a b : Box}
    (h : max 0 (min a.x2 b.x2 - max a.x1 b.x1) *
        max 0 (min a.y2 b.y2 - max a.y1 b.y1) = 0) :
    compute_iou a b = 0 := by
  simp only [compute_iou, h]
  split <;> simp

/-! ### C3 -/

/-- C3: in each of the three association stages, a (track, detection) pair
whose centre distance exceeds the gating distance (squared comparison; the
reference centre is the predicted box in stages A and B and
`last_detection` in recovery) is never part of the accepted matches,
whatever the tier and even if it is the only candidate.  The gated entry
keeps the sentinel cost 2, and accepted pairs must have cost below
`match_threshold = 3/10`. -/
theorem c3_distance_gating :
    (∀ (trks : List KalmanTracker) (dets : List Box) (fw fh mds : ℚ)
      (i j : ℕ) (trk : KalmanTracker) (det : Box),
      trks[i]? = some trk → dets[j]? = some det →
      centerDistSq det (pred_box_of trk) > mds →
      (i, j) ∉ (first_matching trks dets fw fh mds).1.zip
          (first_matching trks dets fw fh mds).2) ∧
    (∀ (trks : List KalmanTracker) (dets : List Box) (fw fh mds : ℚ)
      (i j : ℕ) (trk : KalmanTracker) (det : Box),
      trks[i]? = some trk → dets[j]? = some det →
      centerDistSq det (pred_box_of trk) > mds →
      (i, j) ∉ (second_matching trks dets fw fh mds).1.zip
          (second_matching trks dets fw fh mds).2) ∧
    (∀ (trks : List KalmanTracker) (dets : List Box) (fw fh mds : ℚ)
      (i j : ℕ) (trk : KalmanTracker) (det : Box),
      trks[i]? = some trk → dets[j]? = some det →
      centerDistSq det trk.get_last_detection > mds →
      (i, j) ∉ trajectory_recovery trks dets fw fh mds) := by
  refine ⟨?_, ?_, ?_⟩ <;>
    intro trks dets fw fh mds i j trk det hi hj hgate hmem
  · have hlt := cost_lt_of_mem_first hmem
    rw [first_cost_gated hi hj hgate] at hlt
    norm_num [match_threshold] at hlt
  · have hlt := cost_lt_of_mem_second hmem
    rw [second_cost_gated hi hj hgate] at hlt
    norm_num [match_threshold] at hlt
  · have hlt := cost_lt_of_mem_recovery hmem
    rw [recovery_cost_gated hi hj hgate] at hlt
    norm_num [match_threshold] at hlt

/-- A tracker with a cached prediction centred at (5, 5), for concrete
instantiations. -/
def gateTrk : KalmanTracker :=
  { dummyTracker with predict_state := some ⟨0, 0, 10, 10⟩ }

/-- Witness for C3: a lone high-confidence detection centred 2·10⁶ pixels
(squared) away from the only track's predicted centre is not matched by
stage A even though it is the only candidate pair. -/
theorem c3_distance_gating_witness :
    (0, 0) ∉
      (first_matching [gateTrk] [⟨1000, 1000, 1010, 1010⟩] 640 480 6400).1.zip
        (first_matching [gateTrk] [⟨1000, 1000, 1010, 1010⟩] 640 480 6400).2 :=
  c3_distance_gating.1 [gateTrk] [⟨1000, 1000, 1010, 1010⟩] 640 480 6400 0 0
    gateTrk ⟨1000, 1000, 1010, 1010⟩ rfl rfl (by decide)

/-! ### C6 -/

/-- C6: every (track, detection) pair considered by the occlusion-recovery
stage (i.e. inside the gate; gated pairs keep the sentinel 2) has cost
`1 - ((IoU(last_detection, det) + (1 - d²/c²)) / 2) * (1 - decay_factor ^ lost)`
where `d` is the centre distance to `last_detection` and `c² = W² + H²`:
the reference box is `last_detection`, not the motion-predicted box. -/
theorem c6_recovery_cost_formula (trks : List KalmanTracker)
    (dets : List Box) (fw fh mds : ℚ) (i j : ℕ) (trk : KalmanTracker)
    (det : Box) (hi : trks[i]? = some trk) (hj : dets[j]? = some det)
    (hgate : ¬ centerDistSq det trk.get_last_detection > mds) :
    recovery_cost trks dets fw fh mds i j =
      1 - (compute_iou trk.last_detection det +
          (1 - centerDistSq det trk.last_detection / (fw * fw + fh * fh))) / 2
        * (1 - decay_factor ^ trk.lost) :=
  recovery_cost_not_gated hi hj hgate

/-- A track lost for 2 frames whose last confirmed box is [0,0,10,10]. -/
def c6trk : KalmanTracker :=
  { dummyTracker with lost := 2, last_detection := ⟨0, 0, 10, 10⟩ }

/-- Witness for C6: for a perfect reappearance after 2 lost frames the
recovery cost evaluates to `1 - (1+1)/2 * (1 - (9/10)²) = 81/100`. -/
theorem c6_recovery_cost_formula_witness :
    recovery_cost [c6trk] [⟨0, 0, 10, 10⟩] 640 480 6400 0 0 = 81/100 :=
  (c6_recovery_cost_formula [c6trk] [⟨0, 0, 10, 10⟩] 640 480 6400 0 0 c6trk
      ⟨0, 0, 10, 10⟩ rfl rfl (by decide)).trans (by decide)

/-! ### C8 -/

/-- C8: a degenerate box (zero or negative area on either side of the pair)
makes `compute_iou` return 0 — the division is guarded, so nothing is
raised — and the stage-B assignment still runs with such a pair costing
more than `match_threshold`, hence never accepted. -/
theorem c8_degenerate_boxes (a b : Box)
    (hdeg : a.x2 ≤ a.x1 ∨ a.y2 ≤ a.y1 ∨ b.x2 ≤ b.x1 ∨ b.y2 ≤ b.y1) :
    compute_iou a b = 0 ∧
    ∀ (trks : List KalmanTracker) (dets : List Box) (fw fh mds : ℚ)
      (i j : ℕ) (trk : KalmanTracker),
      trks[i]? = some trk → dets[j]? = some b → pred_box_of trk = a →
      match_threshold < second_cost trks dets fw fh mds i j ∧
      (i, j) ∉ (second_matching trks dets fw fh mds).1.zip
          (second_matching trks dets fw fh mds).2 := by
  have hiou : compute_iou a b = 0 := by
    apply compute_iou_of_inter_zero
    rcases hdeg with h | h | h | h
    · have hx : min a.x2 b.x2 - max a.x1 b.x1 ≤ 0 := by
        have h1 := min_le_left a.x2 b.x2
        have h2 := le_max_left a.x1 b.x1
        linarith
      rw [max_eq_left hx, zero_mul]
    · have hy : min a.y2 b.y2 - max a.y1 b.y1 ≤ 0 := by
        have h1 := min_le_left a.y2 b.y2
        have h2 := le_max_left a.y1 b.y1
        linarith
      rw [max_eq_left hy, mul_zero]
    · have hx : min a.x2 b.x2 - max a.x1 b.x1 ≤ 0 := by
        have h1 := min_le_right a.x2 b.x2
        have h2 := le_max_right a.x1 b.x1
        linarith
      rw [max_eq_left hx, zero_mul]
    · have hy : min a.y2 b.y2 - max a.y1 b.y1 ≤ 0 := by
        have h1 := min_le_right a.y2 b.y2
        have h2 := le_max_right a.y1 b.y1
        linarith
      rw [max_eq_left hy, mul_zero]
  refine ⟨hiou, ?_⟩
  intro trks dets fw fh mds i j trk hi hj hpred
  have key : match_threshold < second_cost trks dets fw fh mds i j := by
    by_cases hg : centerDistSq b (pred_box_of trk) > mds
    · rw [second_cost_gated hi hj hg]
      norm_num [match_threshold]
    · rw [second_cost_not_gated hi hj hg, hpred, hiou]
      have h1 : 0 ≤ centerDistSq b a / (fw * fw + fh * fh) :=
        div_nonneg (centerDistSq_nonneg _ _)
          (add_nonneg (mul_self_nonneg _) (mul_self_nonneg _))
      rw [match_threshold]
      linarith
  exact ⟨key, fun hmem =>
    absurd (cost_lt_of_mem_second hmem) (not_lt.mpr (le_of_lt key))⟩

/-- A tracker whose cached prediction is the degenerate box [0,0,0,10]. -/
def c8trk : KalmanTracker :=
  { dummyTracker with predict_state := some ⟨0, 0, 0, 10⟩ }

/-- Witness for C8 at a concrete degenerate pair: IoU is 0, the stage-B
cost beats the threshold, and the pair is rejected. -/
theorem c8_degenerate_boxes_witness :
    compute_iou ⟨0, 0, 0, 10⟩ ⟨0, 0, 10, 10⟩ = 0 ∧
    match_threshold <
      second_cost [c8trk] [⟨0, 0, 10, 10⟩] 640 480 6400 0 0 ∧
    (0, 0) ∉
      (second_matching [c8trk] [⟨0, 0, 10, 10⟩] 640 480 6400).1.zip
        (second_matching [c8trk] [⟨0, 0, 10, 10⟩] 640 480 6400).2 := by
  have H := c8_degenerate_boxes ⟨0, 0, 0, 10⟩ ⟨0, 0, 10, 10⟩
    (Or.inl (by norm_num))
  have H2 := H.2 [c8trk] [⟨0, 0, 10, 10⟩] 640 480 6400 0 0 c8trk rfl rfl rfl
  exact ⟨H.1, H2.1, H2.2⟩

/-! ### C9 -/

/-- C9: with the gating distance actually used by `step()`
(`maxDistanceSq fw fh`, i.e. gating factor 1/10 of the diagonal), every
stage-A cost entry is either the sentinel 2 or at most
`gating_factor² = 1/100`, which is strictly below `match_threshold = 3/10`;
consequently a solver-assigned pair with non-sentinel cost is always
accepted — stage-A rejection happens only through the gating sentinel. -/
theorem c9_stageA_threshold (trks : List KalmanTracker) (dets : List Box)
    (fw fh : ℚ) (hpos : 0 < fw * fw + fh * fh) :
    (∀ i j, first_cost trks dets fw fh (maxDistanceSq fw fh) i j = 2 ∨
      first_cost trks dets fw fh (maxDistanceSq fw fh) i j ≤ 1/100) ∧
    (1/100 : ℚ) < match_threshold ∧
    ∀ p ∈ linear_sum_assignment trks.length dets.length
        (first_cost trks dets fw fh (maxDistanceSq fw fh)),
      first_cost trks dets fw fh (maxDistanceSq fw fh) p.1 p.2 ≠ 2 →
      ¬ (trks.length = 0 ∨ dets.length = 0) →
      p ∈ (first_matching trks dets fw fh (maxDistanceSq fw fh)).1.zip
          (first_matching trks dets fw fh (maxDistanceSq fw fh)).2 := by
  have hc : fw * fw + fh * fh ≠ 0 := ne_of_gt hpos
  have hbound : ∀ i j,
      first_cost trks dets fw fh (maxDistanceSq fw fh) i j = 2 ∨
      first_cost trks dets fw fh (maxDistanceSq fw fh) i j ≤ 1/100 := by
    intro i j
    rcases h1 : trks[i]? with _ | trk
    · left
      simp [first_cost, h1]
    · rcases h2 : dets[j]? with _ | det
      · left
        simp [first_cost, h1, h2]
      · by_cases hg :
          centerDistSq det (pred_box_of trk) > maxDistanceSq fw fh
        · exact Or.inl (first_cost_gated h1 h2 hg)
        · right
          have hle : centerDistSq det (pred_box_of trk) ≤
              (fw * fw + fh * fh) * (1/100) := by
            have := not_lt.mp hg
            calc centerDistSq det (pred_box_of trk) ≤ maxDistanceSq fw fh :=
                  this
              _ = (fw * fw + fh * fh) * (1/100) := by
                  norm_num [maxDistanceSq, max_distance_factor]
          have : first_cost trks dets fw fh (maxDistanceSq fw fh) i j =
              centerDistSq det (pred_box_of trk) / (fw * fw + fh * fh) := by
            simp [first_cost, h1, h2, hg]
          rw [this, div_le_iff₀ hpos]
          linarith
  refine ⟨hbound, by norm_num [match_threshold], ?_⟩
  intro p hp hne hN
  rcases hbound p.1 p.2 with h | h
  · exact absurd h hne
  rw [first_matching_zip, if_neg hN]
  unfold first_valid
  refine List.mem_filter.mpr ⟨hp, ?_⟩
  exact decide_eq_true
    (lt_of_le_of_lt h (by norm_num [match_threshold]))

/-- Witness for C9: one track predicted at centre (5,5), one detection at
centre (6,5): the pair gets a non-sentinel cost and is accepted. -/
theorem c9_stageA_threshold_witness :
    (0, 0) ∈
      (first_matching [gateTrk] [⟨1, 0, 11, 10⟩] 640 480
          (maxDistanceSq 640 480)).1.zip
        (first_matching [gateTrk] [⟨1, 0, 11, 10⟩] 640 480
          (maxDistanceSq 640 480)).2 :=
  (c9_stageA_threshold [gateTrk] [⟨1, 0, 11, 10⟩] 640 480 (by norm_num)).2.2
    (0, 0) (by decide) (by decide) (by decide)

/-! ### C7 -/

theorem dequeAppend_length_le (m : ℕ) (hist : List (ℚ × ℚ)) (c : ℚ × ℚ) :
    (dequeAppend m hist c).length ≤ m := by
  simp [dequeAppend]
  omega

theorem dequeAppend_at_capacity (m : ℕ) (hist : List (ℚ × ℚ)) (c : ℚ × ℚ)
    (hpos : 0 < m) (hlen : hist.length = m) :
    dequeAppend m hist c = hist.drop 1 ++ [c] := by
  unfold dequeAppend
  simp only [List.length_append, List.length_cons, List.length_nil]
  rw [hlen]
  have h1 : m + (0 + 1) - m = 1 := by omega
  rw [h1]
  exact List.drop_append_of_le_length (by omega)

/-- C7: `KalmanTracker.update` resets `lost` to 0, overwrites
`last_detection` with the given box, appends the corrected (post-estimate)
centre to the history with deque semantics, so the history length never
exceeds `max_history`; at capacity the oldest entry is dropped; and tracks
are created with the default capacity 30. -/
theorem c7_update_effects (trk : KalmanTracker) (bbox : Box) :
    (trk.update bbox).lost = 0 ∧
    (trk.update bbox).last_detection = bbox ∧
    (trk.update bbox).history =
      dequeAppend trk.max_history trk.history
        ((trk.kf.correct (measurementOf bbox)).statePost 0,
          (trk.kf.correct (measurementOf bbox)).statePost 1) ∧
    (trk.update bbox).history.length ≤ trk.max_history ∧
    (0 < trk.max_history → trk.history.length = trk.max_history →
      (trk.update bbox).history =
        trk.history.drop 1 ++
          [((trk.kf.correct (measurementOf bbox)).statePost 0,
            (trk.kf.correct (measurementOf bbox)).statePost 1)]) ∧
    ∀ (b : Box) (i : ℕ) (fw fh : ℚ),
      (KalmanTracker.init b i fw fh).max_history = 30 := by
  refine ⟨rfl, rfl, rfl, dequeAppend_length_le _ _ _, ?_, fun b i fw fh => rfl⟩
  intro hpos hlen
  exact dequeAppend_at_capacity _ _ _ hpos hlen

/-- A tracker at history capacity 2, for the C7 witness. -/
def c7trk : KalmanTracker :=
  { dummyTracker with max_history := 2, history := [(0, 0), (1, 1)] }

/-- Witness for C7: updating a track whose history is at capacity drops the
oldest entry and appends the corrected centre. -/
theorem c7_update_effects_witness :
    (c7trk.update ⟨2, 2, 4, 4⟩).history =
      c7trk.history.drop 1 ++
        [((c7trk.kf.correct (measurementOf ⟨2, 2, 4, 4⟩)).statePost 0,
          (c7trk.kf.correct (measurementOf ⟨2, 2, 4, 4⟩)).statePost 1)] :=
  (c7_update_effects c7trk ⟨2, 2, 4, 4⟩).2.2.2.2.1 (by decide) (by decide)

/-! ### C5 -/

/-- C5 (amended): an absent `frame_shape` behaves exactly like the default
640×480 frame (the `None` fallback), but zero dimensions are *not*
defaulted: `(0, 0)` is used as-is, which makes the gating distance 0. -/
theorem c5_frame_dims_fallback :
    (∀ (s : ObjectTracker) (dets : List Det),
      s.update dets none = s.update dets (some (480, 640))) ∧
    resolveDims none = (480, 640) ∧
    resolveDims (some (0, 0)) = (0, 0) ∧
    maxDistanceSq 640 480 = 6400 ∧
    maxDistanceSq 0 0 = 0 :=
  ⟨fun s dets => rfl, rfl, rfl, by decide, by decide⟩

/-- A static track at centre (100, 100) with `last_detection`
[95,95,105,105]. -/
def c5trk : KalmanTracker :=
  { (KalmanTracker.init ⟨95, 95, 105, 105⟩ 5 640 480) with
      kf :=
        { statePre := ![100, 100, 10, 10, 0, 0, 0, 0]
          statePost := ![100, 100, 10, 10, 0, 0, 0, 0]
          errorCovPre := 0
          errorCovPost := initErrorCov } }

/-- Manager state owning `c5trk`, for the C5 counterexample. -/
def c5state : ObjectTracker :=
  { max_lost := 30
    score_thresh := 7/10
    trackers := [c5trk]
    next_id := 6
    id_mapping := [] }

/-- Counterexample to C5 as stated: with `frame_shape = (0, 0)` the tracker
does not fall back to 640×480 — the zero dimensions degenerate the frame's
matching.  A detection one pixel from the predicted centre is gated out
(the track misses, `lost` becomes 1, and a fresh id 6 is spawned), whereas
under the claimed 640×480 fallback the same detection matches
(`lost` stays 0, no spawn). -/
theorem c5_counterexample :
    ((c5state.update [⟨96, 95, 106, 105, 9/10⟩] (some (0, 0))).1.trackers.map
        fun t => (t.id, t.lost)) = [(5, 1), (6, 0)] ∧
    ((c5state.update [⟨96, 95, 106, 105, 9/10⟩]
          (some (480, 640))).1.trackers.map
        fun t => (t.id, t.lost)) = [(5, 0)] :=
  ⟨by decide, by decide⟩

/-! ### C10 -/

/-- C10: `reset()` empties the live track set, restarts the id counter at 1
and clears the id mapping; consequently an id issued before a reset (here
id 1) is issued again afterwards — the no-reuse guarantee only holds within
reset-free `step()` sequences. -/
theorem c10_reset_behavior :
    (∀ s : ObjectTracker,
      (s.reset).trackers = [] ∧ (s.reset).next_id = 1 ∧
        (s.reset).id_mapping = []) ∧
    stepIssued (ObjectTracker.init 30 (7/10)) [⟨0, 0, 10, 10, 9/10⟩] none =
      [1] ∧
    stepIssued
        ((((ObjectTracker.init 30 (7/10)).update [⟨0, 0, 10, 10, 9/10⟩]
            none).1).reset)
        [⟨0, 0, 10, 10, 9/10⟩] none = [1] :=
  ⟨fun s => ⟨rfl, rfl, rfl⟩, by decide, by decide⟩

/-! ### Identity bookkeeping lemmas (for C1 and C4) -/

theorem KalmanTracker.predict_id (trk : KalmanTracker) :
    trk.predict.id = trk.id := rfl

theorem KalmanTracker.predict_lost (trk : KalmanTracker) :
    trk.predict.lost = trk.lost := rfl

theorem KalmanTracker.predict_last_detection (trk : KalmanTracker) :
    trk.predict.last_detection = trk.last_detection := rfl

theorem KalmanTracker.update_id (trk : KalmanTracker) (b : Box) :
    (trk.update b).id = trk.id := rfl

theorem KalmanTracker.init_id (b : Box) (i : ℕ) (fw fh : ℚ) :
    (KalmanTracker.init b i fw fh).id = i := rfl

theorem getD_map {α β : Type} (f : α → β) (l : List α) (n : ℕ) (d : α) :
    (l.map f).getD n (f d) = f (l.getD n d) := by
  induction l generalizing n with
  | nil => rfl
  | cons a t ih =>
      cases n with
      | zero => rfl
      | succ m => exact ih m

theorem set_getD_self {α : Type} (l : List α) (k : ℕ) (d : α) :
    l.set k (l.getD k d) = l := by
  induction l generalizing k with
  | nil => rfl
  | cons a t ih =>
      cases k with
      | zero => rfl
      | succ m =>
          show a :: t.set m (t.getD m d) = a :: t
          rw [ih m]

theorem map_range_getD {α : Type} (l : List α) (d : α) :
    (List.range l.length).map (fun i => l.getD i d) = l := by
  induction l with
  | nil => rfl
  | cons a t ih =>
      rw [List.length_cons, List.range_succ_eq_map, List.map_cons,
        List.map_map]
      exact congrArg (List.cons a) ih

theorem idsOf_map_predict (l : List KalmanTracker) :
    idsOf (l.map KalmanTracker.predict) = idsOf l := by
  unfold idsOf
  rw [List.map_map]
  rfl

theorem idsOf_set_update (l : List KalmanTracker) (k : ℕ) (b : Box) :
    idsOf (l.set k ((l.getD k dummyTracker).update b)) = idsOf l := by
  unfold idsOf
  rw [List.map_set, KalmanTracker.update_id]
  have h1 : (l.getD k dummyTracker).id =
      (l.map KalmanTracker.id).getD k dummyTracker.id := (getD_map _ _ _ _).symm
  rw [h1, set_getD_self]

theorem applyRecoveryAux_ids (dbs : List Box) (ut ud : List ℕ)
    (rec : List (ℕ × ℕ)) (st : List KalmanTracker × List Bool × List ℕ) :
    idsOf (applyRecoveryAux dbs ut ud rec st).1 = idsOf st.1 := by
  induction rec generalizing st with
  | nil => rfl
  | cons rc rest ih =>
      rw [applyRecoveryAux]
      rw [ih]
      dsimp only
      split
      · rfl
      · exact idsOf_set_update _ _ _

theorem idsOf_map_range (trks : List KalmanTracker)
    (f : ℕ → KalmanTracker → KalmanTracker)
    (hf : ∀ i t, (f i t).id = t.id) :
    idsOf ((List.range trks.length).map
      fun i => f i (trks.getD i dummyTracker)) = idsOf trks := by
  unfold idsOf
  rw [List.map_map]
  have h2 : (KalmanTracker.id ∘ fun i => f i (trks.getD i dummyTracker)) =
      fun i => (trks.getD i dummyTracker).id :=
    funext fun i => hf i _
  rw [h2]
  have h3 : (fun i => (trks.getD i dummyTracker).id) =
      (KalmanTracker.id ∘ fun i => trks.getD i dummyTracker) := rfl
  rw [h3, ← List.map_map, map_range_getD]

theorem lifecycle_body_id (dbs : List Box) (hs ls ht hm lt lm ri : List ℕ)
    (i : ℕ) (t : KalmanTracker) :
    (lifecycle_body dbs hs ls ht hm lt lm ri i t).id = t.id := by
  unfold lifecycle_body
  split
  · rfl
  · split
    · rfl
    · split <;> rfl

theorem lifecycle_update_ids (dbs : List Box)
    (hs ls ht hm lt lm ri : List ℕ) (trks : List KalmanTracker) :
    idsOf (lifecycle_update dbs hs ls ht hm lt lm ri trks) = idsOf trks := by
  unfold lifecycle_update
  exact idsOf_map_range trks _ (lifecycle_body_id dbs hs ls ht hm lt lm ri)

theorem spawnNewAux_spec (dbs : List Box) (fw fh : ℚ)
    (ps : List (ℕ × Bool)) (trks : List KalmanTracker) (n : ℕ) :
    ∃ L : List KalmanTracker,
      spawnNewAux dbs fw fh ps (trks, n) = (trks ++ L, n + L.length) ∧
      idsOf L = List.range' n L.length := by
  induction ps generalizing trks n with
  | nil => exact ⟨[], by simp [spawnNewAux], rfl⟩
  | cons p rest ih =>
      rw [spawnNewAux]
      by_cases hp : p.2 = true
      · rw [if_pos hp]
        exact ih trks n
      · rw [if_neg hp]
        obtain ⟨L, hL1, hL2⟩ :=
          ih (trks ++ [KalmanTracker.init (dbs.getD p.1 dummyBox) n fw fh])
            (n + 1)
        refine ⟨KalmanTracker.init (dbs.getD p.1 dummyBox) n fw fh :: L,
          ?_, ?_⟩
        · rw [hL1, List.append_assoc, List.singleton_append, List.length_cons]
          have hn : n + 1 + L.length = n + (L.length + 1) := by omega
          rw [hn]
        · rw [List.length_cons, List.range'_succ]
          unfold idsOf at hL2 ⊢
          rw [List.map_cons, KalmanTracker.init_id, hL2]

theorem applyRecovery_ids (dbs : List Box) (ut ud : List ℕ)
    (rec : List (ℕ × ℕ)) (trks : List KalmanTracker) (asg : List Bool) :
    idsOf (applyRecovery dbs ut ud rec trks asg).1 = idsOf trks :=
  applyRecoveryAux_ids dbs ut ud rec (trks, asg, [])

theorem spawn_new_spec (dbs : List Box) (fw fh : ℚ) (asg : List Bool)
    (trks : List KalmanTracker) (n : ℕ) :
    ∃ L : List KalmanTracker,
      spawn_new dbs fw fh asg trks n = (trks ++ L, n + L.length) ∧
      idsOf L = List.range' n L.length :=
  spawnNewAux_spec dbs fw fh asg.enum trks n

/-- What `ObjectTracker.closeout` does to the track list and the id
counter: the post-lifecycle tracks keep their ids, spawned tracks take the
consecutive ids from `next_id`, the counter advances by the number of
spawns, and only tracks with `lost < max_lost` survive into the state and
the results. -/
theorem closeout_spec (s : ObjectTracker) (dbs : List Box) (fw fh : ℚ)
    (asg : List Bool) (trks3 : List KalmanTracker) :
    s.next_id ≤ (s.closeout dbs fw fh asg trks3).1.next_id ∧
    (∀ trk' ∈ (s.closeout dbs fw fh asg trks3).1.trackers,
      trk'.lost < s.max_lost ∧
      (trk'.id ∈ idsOf trks3 ∨
        (s.next_id ≤ trk'.id ∧
          trk'.id < (s.closeout dbs fw fh asg trks3).1.next_id))) ∧
    (s.closeout dbs fw fh asg trks3).2 =
      get_tracking_results (s.closeout dbs fw fh asg trks3).1.trackers ∧
    (s.closeout dbs fw fh asg trks3).1.next_id =
      s.next_id + ((s.closeout dbs fw fh asg trks3).1.next_id - s.next_id) ∧
    idsOf (s.closeout dbs fw fh asg trks3).1.trackers ⊆
      idsOf trks3 ++
        List.range' s.next_id
          ((s.closeout dbs fw fh asg trks3).1.next_id - s.next_id) := by
  obtain ⟨L, hL1, hL2⟩ := spawn_new_spec dbs fw fh asg trks3 s.next_id
  have htrk : (s.closeout dbs fw fh asg trks3).1.trackers =
      (trks3 ++ L).filter fun trk => trk.lost < s.max_lost := by
    unfold ObjectTracker.closeout
    rw [hL1]
  have hnext : (s.closeout dbs fw fh asg trks3).1.next_id =
      s.next_id + L.length := by
    unfold ObjectTracker.closeout
    rw [hL1]
  have hlen : (s.closeout dbs fw fh asg trks3).1.next_id - s.next_id =
      L.length := by omega
  refine ⟨by omega, ?_, ?_, by omega, ?_⟩
  · intro trk' h
    rw [htrk] at h
    obtain ⟨hmem, hflag⟩ := List.mem_filter.mp h
    refine ⟨of_decide_eq_true hflag, ?_⟩
    rcases List.mem_append.mp hmem with h1 | h1
    · exact Or.inl (List.mem_map_of_mem _ h1)
    · right
      have : trk'.id ∈ idsOf L := List.mem_map_of_mem _ h1
      rw [hL2] at this
      have := List.mem_range'_1.mp this
      omega
  · unfold ObjectTracker.closeout
    rfl
  · intro x hx
    rw [htrk] at hx
    rw [hnext]
    have h2 : s.next_id + L.length - s.next_id = L.length := by omega
    rw [h2]
    unfold idsOf at hx
    obtain ⟨trk', htrk', rfl⟩ := List.mem_map.mp hx
    have hmem := List.mem_of_mem_filter htrk'
    rcases List.mem_append.mp hmem with h1 | h1
    · exact List.mem_append.mpr (Or.inl (List.mem_map_of_mem _ h1))
    · refine List.mem_append.mpr (Or.inr ?_)
      have : trk'.id ∈ idsOf L := List.mem_map_of_mem _ h1
      rwa [hL2] at this

theorem tracking_results_ids (l : List KalmanTracker) :
    (get_tracking_results l).map TrackResult.id = idsOf l := by
  unfold get_tracking_results idsOf
  rw [List.map_map]
  rfl

theorem idsOf_map_miss (l : List KalmanTracker) :
    idsOf (l.map fun trk =>
      { trk.predict with lost := trk.predict.lost + 1 }) = idsOf l := by
  unfold idsOf
  rw [List.map_map]
  rfl

theorem update_nil_spec (s : ObjectTracker) (fs : Option (ℚ × ℚ)) :
    (s.update [] fs).1.next_id = s.next_id ∧
    (s.update [] fs).1.trackers = s.trackers.map fun trk =>
      { trk.predict with lost := trk.predict.lost + 1 } :=
  ⟨rfl, rfl⟩

theorem update_cons_shape (s : ObjectTracker) (d : Det) (ds : List Det)
    (fs : Option (ℚ × ℚ)) :
    ∃ (dbs : List Box) (fw fh : ℚ) (asg : List Bool)
      (trks3 : List KalmanTracker),
      idsOf trks3 = idsOf s.trackers ∧
      s.update (d :: ds) fs = s.closeout dbs fw fh asg trks3 := by
  refine ⟨_, _, _, _, _, ?_, rfl⟩
  rw [lifecycle_update_ids, applyRecovery_ids, idsOf_map_predict]

theorem update_lost_bound (s : ObjectTracker) (d : Det) (ds : List Det)
    (fs : Option (ℚ × ℚ)) :
    ∀ trk' ∈ ((s.update (d :: ds) fs).1).trackers,
      trk'.lost < s.max_lost := by
  obtain ⟨dbs, fw, fh, asg, trks3, hids, heq⟩ := update_cons_shape s d ds fs
  rw [heq]
  intro trk' h
  exact ((closeout_spec s dbs fw fh asg trks3).2.1 trk' h).1

theorem update_snd (s : ObjectTracker) (dets : List Det)
    (fs : Option (ℚ × ℚ)) :
    (s.update dets fs).2 =
      get_tracking_results (s.update dets fs).1.trackers := by
  rcases dets with _ | ⟨d, ds⟩
  · rfl
  · obtain ⟨dbs, fw, fh, asg, trks3, hids, heq⟩ := update_cons_shape s d ds fs
    rw [heq]
    exact (closeout_spec s dbs fw fh asg trks3).2.2.1

/-- Per-step id accounting: the counter never decreases, every post-step
track either keeps an id that was already live or takes a fresh id from
`[next_id, next_id')`, and the post-step id list is contained in the old
ids plus that fresh range. -/
theorem update_spec (s : ObjectTracker) (dets : List Det)
    (fs : Option (ℚ × ℚ)) :
    s.next_id ≤ (s.update dets fs).1.next_id ∧
    (∀ trk' ∈ (s.update dets fs).1.trackers,
      trk'.id ∈ idsOf s.trackers ∨
        (s.next_id ≤ trk'.id ∧ trk'.id < (s.update dets fs).1.next_id)) ∧
    idsOf (s.update dets fs).1.trackers ⊆
      idsOf s.trackers ++
        List.range' s.next_id ((s.update dets fs).1.next_id - s.next_id) := by
  rcases dets with _ | ⟨d, ds⟩
  · obtain ⟨h1, h2⟩ := update_nil_spec s fs
    refine ⟨le_of_eq h1.symm, ?_, ?_⟩
    · intro trk' h
      rw [h2] at h
      have h3 : trk'.id ∈ idsOf (s.trackers.map fun trk =>
          { trk.predict with lost := trk.predict.lost + 1 }) :=
        List.mem_map_of_mem KalmanTracker.id h
      rw [idsOf_map_miss] at h3
      exact Or.inl h3
    · intro x hx
      rw [h2, idsOf_map_miss] at hx
      exact List.mem_append.mpr (Or.inl hx)
  · obtain ⟨dbs, fw, fh, asg, trks3, hids, heq⟩ := update_cons_shape s d ds fs
    rw [heq]
    obtain ⟨h1, h2, h3, h4, h5⟩ := closeout_spec s dbs fw fh asg trks3
    refine ⟨h1, ?_, ?_⟩
    · intro trk' h
      rcases (h2 trk' h).2 with ha | hb
      · left
        rwa [hids] at ha
      · exact Or.inr hb
    · intro x hx
      have := h5 hx
      rwa [hids] at this

/-- Once an id below the counter is absent from the live set, no sequence
of further `step()` calls can make it reappear, in the live set or in any
returned results (ids only survive from the previous set or are taken
fresh above the counter). -/
theorem run_absent (s : ObjectTracker)
    (hinv : ∀ trk ∈ s.trackers, trk.id < s.next_id) (i : ℕ)
    (habs : i ∉ idsOf s.trackers) (hlt : i < s.next_id)
    (inputs : List (List Det × Option (ℚ × ℚ))) :
    (∀ trk ∈ (s.run inputs).trackers, trk.id < (s.run inputs).next_id) ∧
    i ∉ idsOf (s.run inputs).trackers ∧ i < (s.run inputs).next_id ∧
    ∀ out ∈ s.runResults inputs, i ∉ out.map TrackResult.id := by
  induction inputs generalizing s with
  | nil =>
      refine ⟨hinv, habs, hlt, ?_⟩
      intro out hout
      simp [ObjectTracker.runResults] at hout
  | cons input rest ih =>
      obtain ⟨hle, hchar, hsub⟩ := update_spec s input.1 input.2
      have hinv' : ∀ trk ∈ (s.update input.1 input.2).1.trackers,
          trk.id < (s.update input.1 input.2).1.next_id := by
        intro trk h
        rcases hchar trk h with ha | hb
        · obtain ⟨t, ht, hid⟩ := List.mem_map.mp ha
          have := hinv t ht
          omega
        · exact hb.2
      have habs' : i ∉ idsOf (s.update input.1 input.2).1.trackers := by
        intro hmem
        obtain ⟨t, ht, hid⟩ := List.mem_map.mp hmem
        rcases hchar t ht with ha | hb
        · rw [hid] at ha
          exact habs ha
        · omega
      have hlt' : i < (s.update input.1 input.2).1.next_id :=
        lt_of_lt_of_le hlt hle
      obtain ⟨ih1, ih2, ih3, ih4⟩ :=
        ih (s.update input.1 input.2).1 hinv' habs' hlt'
      refine ⟨ih1, ih2, ih3, ?_⟩
      intro out hout
      rw [ObjectTracker.runResults] at hout
      rcases List.mem_cons.mp hout with rfl | hout'
      · rw [update_snd, tracking_results_ids]
        exact habs'
      · exact ih4 out hout'

/-! ### C1 -/

/-- C1 (amended): in a `step()` call with a *nonempty* detection list,
every track surviving into the post-state (and hence into the results,
whose ids mirror the post-state) has `lost < max_lost`, so a track whose
`lost` reached `max_lost` during such a call is absent from that call's
results; and an id absent from the live set (all live ids sitting below
the id counter) can never reappear in any later state or output.  A call
with an *empty* detection list performs no removal: the track stays in
that call's results and in the live set with `lost ≥ max_lost`, and — as
the counterexample also shows — a later nonempty call may match it and
reset `lost` to 0 before any pruning, reviving it indefinitely. -/
theorem c1_removal_permanent :
    (∀ (s : ObjectTracker) (d : Det) (ds : List Det) (fs : Option (ℚ × ℚ)),
      ∀ trk' ∈ ((s.update (d :: ds) fs).1).trackers,
        trk'.lost < s.max_lost) ∧
    (∀ (s : ObjectTracker) (dets : List Det) (fs : Option (ℚ × ℚ)),
      ((s.update dets fs).2).map TrackResult.id =
        idsOf ((s.update dets fs).1).trackers) ∧
    (∀ s : ObjectTracker, (∀ trk ∈ s.trackers, trk.id < s.next_id) →
      ∀ i, i ∉ idsOf s.trackers → i < s.next_id →
      ∀ inputs, i ∉ idsOf (s.run inputs).trackers ∧
        ∀ out ∈ s.runResults inputs, i ∉ out.map TrackResult.id) := by
  refine ⟨update_lost_bound, ?_, ?_⟩
  · intro s dets fs
    rw [update_snd, tracking_results_ids]
  · intro s hinv i habs hlt inputs
    obtain ⟨_, h2, _, h4⟩ := run_absent s hinv i habs hlt inputs
    exact ⟨h2, h4⟩

/-- A track one miss away from the removal ceiling `max_lost = 2`. -/
def c1trk : KalmanTracker :=
  { (KalmanTracker.init ⟨0, 0, 10, 10⟩ 5 640 480) with lost := 1 }

/-- Manager state owning `c1trk`, with `max_lost = 2`. -/
def c1state : ObjectTracker :=
  { max_lost := 2
    score_thresh := 7/10
    trackers := [c1trk]
    next_id := 6
    id_mapping := [] }

set_option maxRecDepth 4000 in
/-- Counterexample to C1 as stated: on a `step()` call with an empty
detection list the removal filter never runs.  Track 5 reaches
`lost = max_lost = 2` during the call, yet it appears in that call's
returned results and stays in the live set — and it even appears in a
*subsequent* call's results: the next nonempty call has no lost-based
exclusion before matching, so a nearby detection stage-A matches the
track, `update()` resets `lost` to 0, and the track survives the prune
with its id 5 intact. -/
theorem c1_counterexample :
    ((c1state.update [] none).1.trackers.map fun t => (t.id, t.lost)) =
      [(5, 2)] ∧
    ((c1state.update [] none).2.map TrackResult.id) = [5] ∧
    c1state.max_lost = 2 ∧
    (((c1state.update [] none).1.update [⟨0, 0, 10, 10, 9/10⟩]
        none).1.trackers.map fun t => (t.id, t.lost)) = [(5, 0)] ∧
    (((c1state.update [] none).1.update [⟨0, 0, 10, 10, 9/10⟩]
        none).2.map TrackResult.id) = [5] :=
  ⟨by decide, by decide, rfl, by decide, by decide⟩

/-- Witness for C1: applied to the concrete state `c1state`, the id 4
(below the counter and not live) never reappears after a further empty
step. -/
theorem c1_removal_permanent_witness :
    4 ∉ idsOf (c1state.run [([], none)]).trackers :=
  (c1_removal_permanent.2.2 c1state (by decide) 4 (by decide) (by decide)
    [([], none)]).1

/-! ### C4 -/

theorem range'_pairwise_lt (s n : ℕ) :
    (List.range' s n).Pairwise (· < ·) := by
  induction n generalizing s with
  | zero => exact List.Pairwise.nil
  | succ k ih =>
      rw [List.range'_succ]
      refine List.Pairwise.cons ?_ (ih (s + 1))
      intro m hm
      have := List.mem_range'_1.mp hm
      omega

/-- Issued-id accounting over a whole run: the ids issued across a
sequence of `step()` calls form exactly the contiguous range from the
initial counter to the final counter. -/
theorem runIssued_eq (s : ObjectTracker)
    (inputs : List (List Det × Option (ℚ × ℚ))) :
    runIssued s inputs =
      List.range' s.next_id ((s.run inputs).next_id - s.next_id) ∧
    s.next_id ≤ (s.run inputs).next_id := by
  induction inputs generalizing s with
  | nil =>
      refine ⟨?_, le_refl _⟩
      show ([] : List ℕ) = List.range' s.next_id (s.next_id - s.next_id)
      rw [Nat.sub_self]
      rfl
  | cons input rest ih =>
      obtain ⟨ihEq, ihLe⟩ := ih (s.update input.1 input.2).1
      have hle := (update_spec s input.1 input.2).1
      simp only [ObjectTracker.run]
      constructor
      · rw [runIssued, ihEq]
        show List.range' s.next_id
              ((s.update input.1 input.2).1.next_id - s.next_id) ++ _ = _
        have key := List.range'_append s.next_id
          ((s.update input.1 input.2).1.next_id - s.next_id)
          (((s.update input.1 input.2).1.run rest).next_id -
            (s.update input.1 input.2).1.next_id) 1
        have h1 : s.next_id +
            1 * ((s.update input.1 input.2).1.next_id - s.next_id) =
            (s.update input.1 input.2).1.next_id := by omega
        rw [h1] at key
        rw [key]
        have h2 : (((s.update input.1 input.2).1.run rest).next_id -
              (s.update input.1 input.2).1.next_id) +
            ((s.update input.1 input.2).1.next_id - s.next_id) =
            ((s.update input.1 input.2).1.run rest).next_id - s.next_id := by
          omega
        rw [h2]
      · omega

/-- C4: across any sequence of `step()` calls on one manager (no reset),
the ids issued to new tracks form the contiguous, strictly increasing,
duplicate-free range from the starting counter — so all issued ids are
distinct and strictly increasing in issuance order, and no id is ever
issued twice (in particular not after its track is removed).  Moreover
every live track after a step either kept an already-live id or took one
of that step's freshly issued ids. -/
theorem c4_identity_monotone :
    (∀ (s : ObjectTracker) (inputs : List (List Det × Option (ℚ × ℚ))),
      runIssued s inputs =
        List.range' s.next_id ((s.run inputs).next_id - s.next_id) ∧
      List.Chain' (· < ·) (runIssued s inputs) ∧
      (runIssued s inputs).Nodup) ∧
    ∀ (s : ObjectTracker) (dets : List Det) (fs : Option (ℚ × ℚ)),
      ∀ trk' ∈ ((s.update dets fs).1).trackers,
        trk'.id ∈ idsOf s.trackers ∨ trk'.id ∈ stepIssued s dets fs := by
  constructor
  · intro s inputs
    obtain ⟨hEq, _⟩ := runIssued_eq s inputs
    refine ⟨hEq, ?_, ?_⟩
    · rw [hEq]
      exact (range'_pairwise_lt _ _).chain'
    · rw [hEq]
      exact (range'_pairwise_lt _ _).imp fun h => ne_of_lt h
  · intro s dets fs trk' h
    rcases (update_spec s dets fs).2.1 trk' h with ha | ⟨hb1, hb2⟩
    · exact Or.inl ha
    · right
      show trk'.id ∈ List.range' s.next_id _
      exact List.mem_range'_1.mpr ⟨hb1, by omega⟩

/-- Manager state with one live track (id 3) and counter 4, for the C4
witness. -/
def c4state : ObjectTracker :=
  { max_lost := 30
    score_thresh := 7/10
    trackers := [KalmanTracker.init ⟨0, 0, 10, 10⟩ 3 640 480]
    next_id := 4
    id_mapping := [] }

/-- The surviving track after an empty step on `c4state`. -/
def c4trk : KalmanTracker :=
  ((c4state.update [] none).1.trackers).getD 0 dummyTracker

/-- Witness for C4: the track surviving a concrete step either kept a live
id or took a freshly issued one. -/
theorem c4_identity_monotone_witness :
    c4trk.id ∈ idsOf c4state.trackers ∨ c4trk.id ∈ stepIssued c4state [] none :=
  c4_identity_monotone.2 c4state [] none c4trk (List.Mem.head _)

/-! ### C2 -/

theorem KalmanTracker.update_lost (trk : KalmanTracker) (b : Box) :
    (trk.update b).lost = 0 := rfl

theorem second_matching_nil_dets (trks : List KalmanTracker)
    (fw fh mds : ℚ) : second_matching trks [] fw fh mds = ([], []) := by
  unfold second_matching
  simp

theorem first_matching_single_gated (trk : KalmanTracker) (det : Box)
    (fw fh mds : ℚ)
    (hA : centerDistSq det (pred_box_of trk) > mds) :
    first_matching [trk] [det] fw fh mds = ([], []) := by
  unfold first_matching first_valid
  rw [if_neg (by norm_num)]
  dsimp only
  rw [show linear_sum_assignment [trk].length [det].length
      (first_cost [trk] [det] fw fh mds) = [(0, 0)] from rfl]
  have hcost : first_cost [trk] [det] fw fh mds 0 0 = 2 :=
    first_cost_gated rfl rfl hA
  simp [hcost, match_threshold]
  norm_num

theorem trajectory_recovery_single (trk : KalmanTracker) (det : Box)
    (fw fh mds : ℚ)
    (hC : recovery_cost [trk] [det] fw fh mds 0 0 < match_threshold) :
    trajectory_recovery [trk] [det] fw fh mds = [(0, 0)] := by
  unfold trajectory_recovery
  rw [if_neg (by norm_num)]
  dsimp only
  rw [show linear_sum_assignment [trk].length [det].length
      (recovery_cost [trk] [det] fw fh mds) = [(0, 0)] from rfl]
  simp [hC]

set_option maxHeartbeats 1000000 in
/-- Symbolic execution of one `step()` on a single-track manager: the lone
high-confidence detection is gated away from stage A, stage B gets no
detections, and the recovery pair clears the threshold, so the track is
corrected via the recovery stage: same id, `lost` reset to 0, and no new
track is spawned. -/
theorem recovery_scenario (ml : ℕ) (st : ℚ) (n : ℕ) (idm : List (ℕ × ℤ))
    (trk : KalmanTracker) (det : Det) (fs : Option (ℚ × ℚ))
    (hml : 0 < ml)
    (hscore : st ≤ det.score)
    (hgateA : centerDistSq det.box (pred_box_of trk.predict) >
      maxDistanceSq (resolveDims fs).2 (resolveDims fs).1)
    (hcost : recovery_cost [trk.predict] [det.box] (resolveDims fs).2
      (resolveDims fs).1
      (maxDistanceSq (resolveDims fs).2 (resolveDims fs).1) 0 0 <
      match_threshold) :
    ((ObjectTracker.update ⟨ml, st, [trk], n, idm⟩ [det] fs).1.trackers.map
      fun t => (t.id, t.lost)) = [(trk.id, 0)] := by
  have hA := first_matching_single_gated trk.predict det.box
    (resolveDims fs).2 (resolveDims fs).1
    (maxDistanceSq (resolveDims fs).2 (resolveDims fs).1) hgateA
  have hR := trajectory_recovery_single trk.predict det.box
    (resolveDims fs).2 (resolveDims fs).1
    (maxDistanceSq (resolveDims fs).2 (resolveDims fs).1) hcost
  have hnlt : ¬ (det.score < st) := not_lt.mpr hscore
  have henum : ([true] : List Bool).enum = [(0, true)] := rfl
  have hr1 : List.range 1 = [0] := rfl
  simp only [ObjectTracker.update]
  rw [if_neg (by norm_num)]
  simp [hscore, hnlt, hml, hA, hR, henum, hr1, second_matching_nil_dets,
    ObjectTracker.closeout, spawn_new, spawnNewAux, applyRecovery,
    applyRecoveryAux, lifecycle_update, lifecycle_body, update_id_mapping,
    KalmanTracker.update_lost, KalmanTracker.update_id,
    KalmanTracker.predict_id]

/-- C2 (amended): a Track lost for `k` frames (`0 < k`) whose
high-confidence detection reappears close to `last_detection` (inside the
recovery gate) while the motion prediction has drifted beyond the stage-A
gate is matched via the occlusion-recovery stage, its `lost` resets to 0
and its id is preserved — *provided* the decayed similarity clears the
acceptance threshold:
`1 - ((IoU + (1 - d²/c²)) / 2) * (1 - 0.9^k) < 0.3`.  Because the
similarity `(IoU + D)/2` is at most 1, this forces `0.9^k < 0.3`,
i.e. `k ≥ 12`: for smaller `k` the original claim fails even for a perfect
reappearance (see the counterexample). -/
theorem c2_occlusion_recovery (ml : ℕ) (st : ℚ) (n : ℕ)
    (idm : List (ℕ × ℤ)) (trk : KalmanTracker) (det : Det)
    (fs : Option (ℚ × ℚ))
    (hml : 0 < ml)
    (_hlost : 0 < trk.lost)
    (hscore : st ≤ det.score)
    (hgateA : centerDistSq det.box (pred_box_of trk.predict) >
      maxDistanceSq (resolveDims fs).2 (resolveDims fs).1)
    (hgateR : ¬ centerDistSq det.box trk.last_detection >
      maxDistanceSq (resolveDims fs).2 (resolveDims fs).1)
    (hsim : 1 - (compute_iou trk.last_detection det.box +
        (1 - centerDistSq det.box trk.last_detection /
          ((resolveDims fs).2 * (resolveDims fs).2 +
            (resolveDims fs).1 * (resolveDims fs).1))) / 2
        * (1 - decay_factor ^ trk.lost) < match_threshold) :
    trajectory_recovery [trk.predict] [det.box] (resolveDims fs).2
        (resolveDims fs).1
        (maxDistanceSq (resolveDims fs).2 (resolveDims fs).1) = [(0, 0)] ∧
    ((ObjectTracker.update ⟨ml, st, [trk], n, idm⟩ [det] fs).1.trackers.map
      fun t => (t.id, t.lost)) = [(trk.id, 0)] := by
  have hcost : recovery_cost [trk.predict] [det.box] (resolveDims fs).2
      (resolveDims fs).1
      (maxDistanceSq (resolveDims fs).2 (resolveDims fs).1) 0 0 <
      match_threshold := by
    have hgateR' : ¬ centerDistSq det.box
        (trk.predict).get_last_detection >
        maxDistanceSq (resolveDims fs).2 (resolveDims fs).1 := hgateR
    rw [recovery_cost_not_gated rfl rfl hgateR']
    exact hsim
  exact ⟨trajectory_recovery_single trk.predict det.box _ _ _ hcost,
    recovery_scenario ml st n idm trk det fs hml hscore hgateA hcost⟩

/-- A track with id 5 whose motion state has drifted to (1000, 1000) while
its last confirmed detection is [0,0,10,10], lost for 1 frame. -/
def c2trkDrift : KalmanTracker :=
  { (KalmanTracker.init ⟨0, 0, 10, 10⟩ 5 640 480) with
      lost := 1
      kf :=
        { statePre := ![1000, 1000, 10, 10, 0, 0, 0, 0]
          statePost := ![1000, 1000, 10, 10, 0, 0, 0, 0]
          errorCovPre := 0
          errorCovPost := initErrorCov } }

/-- Manager state owning `c2trkDrift`. -/
def c2state : ObjectTracker :=
  { max_lost := 30
    score_thresh := 7/10
    trackers := [c2trkDrift]
    next_id := 6
    id_mapping := [] }

/-- Counterexample to C2 as stated: with `k = 1` (`0 < k < max_lost`), a
high-confidence detection reappearing *exactly* at the track's
`last_detection` (IoU 1, centre distance 0, unmatched by stages A and B
because the prediction drifted beyond the gate) is still not recovered:
the decay weight `1 - 0.9¹ = 0.1` caps the scaled similarity at 0.1, the
cost is 0.9 ≥ 0.3, the track's `lost` rises to 2 instead of resetting to
0, and the detection spawns a fresh id 6 instead of preserving id 5. -/
theorem c2_counterexample :
    ((c2state.update [⟨0, 0, 10, 10, 9/10⟩] none).1.trackers.map
      fun t => (t.id, t.lost)) = [(5, 2), (6, 0)] ∧
    c2trkDrift.lost = 1 ∧ (1 : ℕ) < c2state.max_lost := by
  refine ⟨by decide, rfl, by decide⟩

/-- The same drifted track after 12 lost frames, for the C2 witness. -/
def c2trkTwelve : KalmanTracker := { c2trkDrift with lost := 12 }

/-- Witness for C2 (amended): at `k = 12` the decayed similarity of a
perfect reappearance clears the threshold and the track is recovered with
its id preserved and `lost` reset. -/
theorem c2_occlusion_recovery_witness :
    ((ObjectTracker.update ⟨30, 7/10, [c2trkTwelve], 6, []⟩
        [⟨0, 0, 10, 10, 9/10⟩] none).1.trackers.map
      fun t => (t.id, t.lost)) = [(c2trkTwelve.id, 0)] :=
  (c2_occlusion_recovery 30 (7/10) 6 [] c2trkTwelve ⟨0, 0, 10, 10, 9/10⟩
    none (by decide) (by decide) (by decide) (by decide) (by decide)
    (by decide)).2
